import Mathlib

/-!
Shallow embedding of the identity-and-trust core of the agent-identity-hub
repository: the Capability Issuer (src/services/capability-issuer.ts), the
Trust Engine and Anomaly Detector (src/services/trust-engine.ts), the
Attestation Service chain builder, and the DID ownership check, together
with theorems settling the specification claims about them.

Conventions of the embedding:
* JavaScript numbers are modelled as rationals (ℚ); timestamps as integers
  (milliseconds, or seconds where the JWT layer is concerned).
* JavaScript runtime values that flow through capability conditions are
  modelled by the inductive `JSValue`; strict equality (===) on arrays is
  reference equality in JavaScript, so two distinct array values are
  modelled as never strictly equal.
* Database reads are modelled as explicit function or list parameters;
  fallible operations return `Except`.
-/

namespace AgentIdentityHub

/-- A JavaScript runtime value as it can appear in a capability condition
value or a verification context. -/
inductive JSValue where
  | undefined
  | null
  | boolean (b : Bool)
  | num (q : ℚ)
  | str (s : String)
  | arr (xs : List JSValue)

/-- JavaScript strict equality (===) restricted to the values above.
Arrays are compared by reference in JavaScript, and a condition value and a
context value are distinct objects, so array-to-array comparison is `false`. -/
def jsStrictEq : JSValue → JSValue → Bool
  | .undefined, .undefined => true
  | .null, .null => true
  | .boolean a, .boolean b => a == b
  | .num a, .num b => a == b
  | .str a, .str b => a == b
  | _, _ => false

/-- Coercion to string as performed by a JavaScript template literal,
approximating number formatting; used only inside error-message text. -/
def jsDisplay : JSValue → String
  | .undefined => "undefined"
  | .null => "null"
  | .boolean b => if b then "true" else "false"
  | .num q => if q.den == 1 then toString q.num else toString q
  | .str s => s
  | .arr _ => ""

/-- `typeof v === "number"`. -/
def JSValue.isNumber : JSValue → Bool
  | .num _ => true
  | _ => false

/-- `typeof v === "string"`. -/
def JSValue.isString : JSValue → Bool
  | .str _ => true
  | _ => false

/-- Numeric payload of a value known to be a number. -/
def JSValue.asNum : JSValue → ℚ
  | .num q => q
  | _ => 0

/-- String payload of a value known to be a string. -/
def JSValue.asStr : JSValue → String
  | .str s => s
  | _ => ""

/-- `haystack.includes(needle)` on strings. -/
def strIncludes (haystack needle : String) : Bool :=
  decide (needle.toList <:+: haystack.toList)

/-- `s.startsWith(prefixStr)` on strings, via the character lists. -/
def strStartsWith (s prefixStr : String) : Bool :=
  prefixStr.toList.isPrefixOf s.toList

/-- A verification context `Record<string, unknown>`; indexing a missing
key yields `undefined`. -/
def jsLookup (ctx : List (String × JSValue)) (key : String) : JSValue :=
  match ctx.find? (fun p => p.1 == key) with
  | some p => p.2
  | none => .undefined

/-- `array.includes(x)` for a condition value that is an array
(SameValueZero on the primitive values we model). -/
def jsArrIncludes (xs : List JSValue) (x : JSValue) : Bool :=
  xs.any (fun y => jsStrictEq y x)

/-- models/capability.ts `CapabilityStatus`. -/
inductive CapabilityStatus where
  | active
  | expired
  | revoked
  | pending
deriving DecidableEq, Repr

/-- models/capability.ts `CapabilityCondition`; `type` and `operator` are
kept as strings, mirroring the string-keyed switch in the source. -/
structure CapabilityCondition where
  ctype : String
  parameter : String
  operator : String
  value : JSValue

/-- models/capability.ts `Capability` (as produced by `mapCapabilityFromDb`:
timestamps as instants, `conditions` possibly absent). -/
structure Capability where
  id : String
  subject : String
  issuer : String
  actions : List String
  resources : List String
  conditions : Option (List CapabilityCondition)
  notBefore : Option Int
  expiration : Option Int
  issuedAt : Int
  revokedAt : Option Int
  status : CapabilityStatus

/-- capability-issuer.ts `evaluateConditions`, one condition: the
string-keyed `switch (condition.operator)`; an operator with no case
(including `not_equals`, `before`, `after`) adds no error. -/
def evaluateCondition (context : List (String × JSValue))
    (condition : CapabilityCondition) : List String :=
  let contextValue := jsLookup context condition.parameter
  match condition.operator with
  | "equals" =>
    if !(jsStrictEq contextValue condition.value) then
      ["Condition failed: " ++ condition.parameter ++ " must equal " ++
        jsDisplay condition.value]
    else []
  | "greater_than" =>
    if contextValue.isNumber && condition.value.isNumber then
      if contextValue.asNum ≤ condition.value.asNum then
        ["Condition failed: " ++ condition.parameter ++
          " must be greater than " ++ jsDisplay condition.value]
      else []
    else []
  | "less_than" =>
    if contextValue.isNumber && condition.value.isNumber then
      if condition.value.asNum ≤ contextValue.asNum then
        ["Condition failed: " ++ condition.parameter ++
          " must be less than " ++ jsDisplay condition.value]
      else []
    else []
  | "contains" =>
    if contextValue.isString && condition.value.isString &&
        !(strIncludes contextValue.asStr condition.value.asStr) then
      ["Condition failed: " ++ condition.parameter ++ " must contain " ++
        jsDisplay condition.value]
    else []
  | "in" =>
    match condition.value with
    | .arr xs =>
      if !(jsArrIncludes xs contextValue) then
        ["Condition failed: " ++ condition.parameter ++ " must be in [" ++
          String.intercalate ", " (xs.map jsDisplay) ++ "]"]
      else []
    | _ => []
  | _ => []

/-- capability-issuer.ts `evaluateConditions`: accumulates the errors of
every condition, in order. -/
def evaluateConditions (conditions : List CapabilityCondition)
    (context : List (String × JSValue)) : List String :=
  conditions.flatMap (evaluateCondition context)

/-- capability-issuer.ts `verifyCapability`, resource step:
`capability.resources.some((resource) => request.resource === resource ||
request.resource.startsWith(resource) || resource === '*')`. -/
def hasResourceAccess (resources : List String) (requested : String) : Bool :=
  resources.any (fun resource =>
    requested == resource || strStartsWith requested resource || resource == "*")

/-- The payload of the bearer JWT as signed by `issueCapability`, together
with whether its HMAC signature verifies under the server secret
(`sigValid` abstracts `jwt.verify`'s signature comparison). Times are in
seconds, as in the `iat`/`nbf`/`exp` claims. -/
structure BearerToken where
  jti : String
  sub : String
  iss : String
  iat : Int
  nbf : Int
  exp : Int
  capActions : List String
  capResources : List String
  sigValid : Bool

/-- The error classes thrown by the jsonwebtoken library during `verify`:
`TokenExpiredError`, `NotBeforeError` and the generic `JsonWebTokenError`
(the first two are subclasses of the third, and the source's catch block
tests `TokenExpiredError` before `JsonWebTokenError`). -/
inductive JwtError where
  | tokenExpired
  | notBeforeError
  | jsonWebTokenError
deriving DecidableEq, Repr

/-- jsonwebtoken `verify` at clock time `now` (seconds): signature first,
then `nbf` (`clockTimestamp < payload.nbf` fails), then `exp`
(`clockTimestamp >= payload.exp` fails). -/
def jwtVerify (token : BearerToken) (now : Int) : Except JwtError BearerToken :=
  if !token.sigValid then .error .jsonWebTokenError
  else if now < token.nbf then .error .notBeforeError
  else if token.exp ≤ now then .error .tokenExpired
  else .ok token

/-- models/capability.ts `CapabilityVerificationResult`. -/
structure CapabilityVerificationResult where
  valid : Bool
  capability : Option Capability
  subject : Option String
  allowedActions : Option (List String)
  errors : Option (List String)

/-- A failure result `{ valid: false, errors: [...] }`. -/
def failResult (errors : List String) : CapabilityVerificationResult :=
  ⟨false, none, none, none, some errors⟩

/-- capability-issuer.ts `verifyCapability`. The capabilities table is the
function `db` from id to stored row (already through
`mapCapabilityFromDb`); `now` is the clock in seconds for the JWT layer.
The catch block maps `TokenExpiredError` to "Token has expired" and any
other `JsonWebTokenError` to "Invalid token". -/
def verifyCapability (db : String → Option Capability) (token : BearerToken)
    (action : String) (resource : String)
    (context : Option (List (String × JSValue))) (now : Int) :
    CapabilityVerificationResult :=
  match jwtVerify token now with
  | .error .tokenExpired => failResult ["Token has expired"]
  | .error _ => failResult ["Invalid token"]
  | .ok decoded =>
    match db decoded.jti with
    | none => failResult ["Capability not found"]
    | some capability =>
      if capability.status = .revoked then
        failResult ["Capability has been revoked"]
      else if capability.status = .expired then
        failResult ["Capability has expired"]
      else if decoded.sub ≠ capability.subject then
        failResult ["Subject mismatch"]
      else if !(capability.actions.contains action) then
        failResult ["Action \x27" ++ action ++ "\x27 not permitted"]
      else if !(hasResourceAccess capability.resources resource) then
        failResult ["Resource \x27" ++ resource ++ "\x27 not accessible"]
      else
        match capability.conditions, context with
        | some conditions, some ctx =>
          let conditionErrors := evaluateConditions conditions ctx
          if conditionErrors ≠ [] then failResult conditionErrors
          else ⟨true, some capability, some decoded.sub,
            some capability.actions, none⟩
        | _, _ =>
          ⟨true, some capability, some decoded.sub,
            some capability.actions, none⟩

/-- capability-issuer.ts `issueCapability`, expiration slice:
`const expiresInHours = request.expiresInHours || 24` (any falsy value,
including 0, falls back to 24) and
`expiration = new Date(now.getTime() + expiresInHours * 60 * 60 * 1000)`.
`now` is in milliseconds. -/
def issueExpiration (now : Int) (requestExpiresInHours : Option Int) : Int :=
  let expiresInHours : Int :=
    match requestExpiresInHours with
    | none => 24
    | some h => if h = 0 then 24 else h
  now + expiresInHours * 60 * 60 * 1000

/-- The request-validation schema for capability issuance (zod,
`expiresInHours: z.number().int().positive().max(8760).optional()`): the
routing layer rejects an out-of-range value before `issueCapability` runs. -/
def expiresInHoursSchemaAccepts (requestExpiresInHours : Option Int) : Bool :=
  match requestExpiresInHours with
  | none => true
  | some h => 0 < h && h ≤ 8760

/-- The activity row appended by `revokeCapability` via
`identityManager.logActivity` (its metadata object
`{ capabilityId, revokedBy, reason }` kept structured). -/
structure RevocationActivity where
  agentId : String
  activityType : String
  description : String
  timestamp : Int
  capabilityId : String
  revokedBy : String
  reason : Option String
deriving DecidableEq, Repr

/-- The observable state touched by `revokeCapability`: the stored
capability row and the subject agent's activity log. `subjectAgentId` is
the id of the agent whose DID is `capability.subject` (resolved in the
source by `identityManager.getAgentByDID`). -/
structure RevokeState where
  capability : Capability
  subjectAgentId : String
  activities : List RevocationActivity

inductive RevokeError where
  | notFound
  | notAuthorized
deriving DecidableEq, Repr

/-- capability-issuer.ts `revokeCapability`: row lookup, authorization
(issuer, or `checkAdminCapability` modelled by the boolean `adminCheck`),
then an unconditional `UPDATE ... SET status = revoked, revoked_at =
CURRENT_TIMESTAMP` and an activity append. The already-revoked case is not
special-cased by the source. -/
def revokeCapability (st : RevokeState) (capabilityId : String)
    (revokedBy : String) (reason : Option String) (adminCheck : Bool)
    (now : Int) : Except RevokeError RevokeState :=
  if st.capability.id ≠ capabilityId then .error .notFound
  else if revokedBy ≠ st.capability.issuer && !adminCheck then
    .error .notAuthorized
  else
    .ok
      { capability :=
          { st.capability with status := .revoked, revokedAt := some now }
        subjectAgentId := st.subjectAgentId
        activities := st.activities ++
          [{ agentId := st.subjectAgentId
             activityType := "capability_revoked"
             description := "Capability revoked: " ++
               (reason.getD "No reason provided")
             timestamp := now
             capabilityId := capabilityId
             revokedBy := revokedBy
             reason := reason }] }

/-- models/capability.ts `CapabilityDelegation` (the `conditions`
restriction field is never set by `delegateCapability`). -/
structure CapabilityDelegation where
  id : String
  capabilityId : String
  delegator : String
  delegatee : String
  restrictionActions : List String
  restrictionResources : List String
  delegatedAt : Int
  expiresAt : Option Int

inductive DelegationError where
  | notFound
  | notSubject
  | delegationNotAllowed
deriving DecidableEq, Repr

/-- capability-issuer.ts `delegateCapability`: looks the capability up,
requires the delegator to be its subject and `delegate` to be among its
actions, and builds the delegation record. It never inspects
`status`, `revokedAt` or `expiration`. `freshId` stands for `generateId()`
and `now` for the wall clock in milliseconds. -/
def delegateCapability (db : String → Option Capability)
    (capabilityId : String) (delegator : String) (delegatee : String)
    (restrictionActions : Option (List String))
    (restrictionResources : Option (List String))
    (expiresInHours : Option Int) (freshId : String) (now : Int) :
    Except DelegationError CapabilityDelegation :=
  match db capabilityId with
  | none => .error .notFound
  | some originalCapability =>
    if originalCapability.subject ≠ delegator then .error .notSubject
    else if !(originalCapability.actions.contains "delegate") then
      .error .delegationNotAllowed
    else
      .ok
        { id := freshId
          capabilityId := capabilityId
          delegator := delegator
          delegatee := delegatee
          restrictionActions :=
            restrictionActions.getD originalCapability.actions
          restrictionResources :=
            restrictionResources.getD originalCapability.resources
          delegatedAt := now
          expiresAt :=
            match expiresInHours with
            | some h =>
              if h = 0 then originalCapability.expiration
              else some (now + h * 60 * 60 * 1000)
            | none => originalCapability.expiration }

/-- models/agent.ts `AgentActivity` as consumed by the trust engine:
`activityType` is the enum string, `timestamp` in milliseconds, and
`metadata` the JSON serialization of the metadata object (the only use of
metadata in the trust engine is `JSON.stringify(a.metadata)`). -/
structure AgentActivity where
  activityType : String
  timestamp : Int
  metadata : String
deriving DecidableEq, Repr

/-- One relationship edge as consumed by the trust engine: the id of the
other endpoint and the edge's `trustLevel`. -/
structure RelationshipEdge where
  otherAgentId : String
  trustLevel : ℚ
deriving DecidableEq, Repr

/-- `identityManager.getRelationships` result: incoming edges carry
`sourceAgentId` in `otherAgentId`, outgoing edges carry `targetAgentId`. -/
structure Relationships where
  incoming : List RelationshipEdge
  outgoing : List RelationshipEdge
deriving DecidableEq, Repr

/-- utils `clamp`: `Math.min(Math.max(value, min), max)`. -/
def clamp (value lo hi : ℚ) : ℚ := min (max value lo) hi

/-- models/attestation.ts `Claim`. -/
structure AttestationClaim where
  ctype : String
  value : JSValue
  issuer : Option String

/-- models/attestation.ts `Attestation` as produced by
`mapAttestationFromDb`; `revocation` is `none` when the row has no
revocation JSON, and its payload is kept opaque. -/
structure Attestation where
  id : String
  atype : String
  issuer : String
  subject : String
  claims : List AttestationClaim
  issuedAt : Int
  expiresAt : Option Int
  revoked : Bool

/-- trust-engine.ts `calculateAttestationScore`. -/
def calculateAttestationScore (attestations : List Attestation) : ℚ :=
  if attestations.length = 0 then 0.5
  else
    let trustAttestations :=
      attestations.filter (fun a => a.atype == "trust_assertion")
    let identityAttestations :=
      attestations.filter (fun a => a.atype == "identity_verification")
    let score := 0.5 + min ((trustAttestations.length : ℚ) * 0.1) 0.3 +
      min ((identityAttestations.length : ℚ) * 0.05) 0.2
    min score 1

/-- trust-engine.ts `calculateActivityScore` at clock `now` (ms):
0.5 with no activity at all, 0.3 with none in the trailing 7 days, else
`0.5 + 0.5 × positive/(positive + negative || 1)` over that window. -/
def calculateActivityScore (activities : List AgentActivity) (now : Int) : ℚ :=
  if activities.length = 0 then 0.5
  else
    let recentActivities := activities.filter
      (fun a => now - a.timestamp < 7 * 24 * 60 * 60 * 1000)
    if recentActivities.length = 0 then 0.3
    else
      let positiveCount := (recentActivities.filter (fun a =>
        a.activityType == "capability_granted" ||
        a.activityType == "attestation_issued")).length
      let negativeCount := (recentActivities.filter (fun a =>
        a.activityType == "anomaly_detected" ||
        a.activityType == "capability_revoked")).length
      let denom : ℚ :=
        if positiveCount + negativeCount = 0 then 1
        else (positiveCount + negativeCount : ℚ)
      0.5 + (positiveCount : ℚ) / denom * 0.5

/-- trust-engine.ts `calculateRelationshipScore`: mean trust level over
incoming and outgoing edges, 0.5 when there are none. -/
def calculateRelationshipScore (relationships : Relationships) : ℚ :=
  let allRelationships := relationships.incoming ++ relationships.outgoing
  if allRelationships.length = 0 then 0.5
  else (allRelationships.map (fun r => r.trustLevel)).sum /
    (allRelationships.length : ℚ)

/-- trust-engine.ts `calculateAgeScore` at clock `now` (ms):
`min(ageInDays / 90, 1)`. -/
def calculateAgeScore (createdAt now : Int) : ℚ :=
  let ageDays : ℚ := ((now - createdAt : Int) : ℚ) / (1000 * 60 * 60 * 24)
  min (ageDays / 90) 1

/-- trust-engine.ts `calculateReputationScore`:
`(reputation + 1000) / 2000`. -/
def calculateReputationScore (reputation : ℚ) : ℚ :=
  (reputation + 1000) / 2000

/-- trust-engine.ts `calculateRecencyWeight` at clock `now` (ms): 0 with no
activities, else `max(0, 1 − hoursSinceLastActivity/168)` from the first
(most recent) activity of the list. -/
def calculateRecencyWeight (activities : List AgentActivity) (now : Int) : ℚ :=
  match activities with
  | [] => 0
  | lastActivity :: _ =>
    let hoursSinceLastActivity : ℚ :=
      ((now - lastActivity.timestamp : Int) : ℚ) / (1000 * 60 * 60)
    max 0 (1 - hoursSinceLastActivity / 168)

/-- A stored unresolved anomaly row as read back by
`getAnomalyHistory(agentId, false)`: only severity and confidence feed the
penalty. -/
structure StoredAnomaly where
  severity : String
  confidence : ℚ
deriving DecidableEq, Repr

/-- trust-engine.ts `calculateAnomalyPenalty` over the unresolved
anomalies: severity multiplier (critical 0.3, high 0.2, medium 0.1,
else 0.05) times confidence, summed and capped at 0.5. -/
def calculateAnomalyPenalty (unresolvedAnomalies : List StoredAnomaly) : ℚ :=
  if unresolvedAnomalies.length = 0 then 0
  else
    let penalty := (unresolvedAnomalies.map (fun anomaly =>
      (if anomaly.severity == "critical" then (0.3 : ℚ)
       else if anomaly.severity == "high" then 0.2
       else if anomaly.severity == "medium" then 0.1
       else 0.05) * anomaly.confidence)).sum
    min penalty 0.5

/-- trust-engine.ts `TrustScoreCalculation` (numeric fields). -/
structure TrustScoreCalculation where
  baseScore : ℚ
  attestations : Nat
  positiveInteractions : Nat
  negativeInteractions : Nat
  recencyWeight : ℚ
  anomalyPenalty : ℚ
  finalScore : ℚ
deriving DecidableEq, Repr

/-- trust-engine.ts `calculateTrustScore`, pure computation: the database
reads (attestations of the subject, the 100 most recent activities, the
relationship edges, the agent row's reputation and creation time, and the
unresolved anomaly rows) are passed in as snapshots; `decayRate` and
`boostRate` come from the environment (defaults 0.05 and 0.1). -/
def calculateTrustScore (decayRate boostRate : ℚ)
    (attestations : List Attestation) (activities : List AgentActivity)
    (relationships : Relationships) (reputation : ℚ) (createdAt : Int)
    (unresolvedAnomalies : List StoredAnomaly) (now : Int) :
    TrustScoreCalculation :=
  let baseScore := 0.5 + calculateAttestationScore attestations * 0.3 +
    calculateActivityScore activities now * 0.2 +
    calculateRelationshipScore relationships * 0.2 +
    calculateAgeScore createdAt now * 0.1 +
    calculateReputationScore reputation * 0.2
  let recencyWeight := calculateRecencyWeight activities now
  let anomalyPenalty := calculateAnomalyPenalty unresolvedAnomalies
  let finalScore :=
    if recencyWeight > 0.5 then baseScore + boostRate * recencyWeight
    else baseScore - decayRate * (0.5 - recencyWeight)
  let finalScore := finalScore - anomalyPenalty
  let finalScore := clamp finalScore 0 1
  { baseScore := baseScore
    attestations := attestations.length
    positiveInteractions := (activities.filter (fun a =>
      a.activityType == "capability_granted" ||
      a.activityType == "attestation_verified")).length
    negativeInteractions := (activities.filter (fun a =>
      a.activityType == "anomaly_detected" ||
      a.activityType == "capability_revoked")).length
    recencyWeight := recencyWeight
    anomalyPenalty := anomalyPenalty
    finalScore := finalScore }

/-- models `AnomalyIndicator` (numeric content; the presentation-only
`description` string is not modelled). -/
structure AnomalyIndicator where
  itype : String
  value : ℚ
  threshold : ℚ
deriving DecidableEq, Repr

/-- models `AnomalyDetectionResult`. -/
structure AnomalyDetectionResult where
  agentId : String
  anomalyType : String
  severity : String
  confidence : ℚ
  indicators : List AnomalyIndicator
  detectedAt : Int
  recommendedAction : String
deriving DecidableEq, Repr

/-- trust-engine.ts `detectAccessPatternAnomalies` at clock `now` (ms). -/
def detectAccessPatternAnomalies (agentId : String)
    (activities : List AgentActivity) (now : Int) :
    Option AnomalyDetectionResult :=
  let oneHourAgo := now - 60 * 60 * 1000
  let recentActivities := activities.filter (fun a => a.timestamp > oneHourAgo)
  if recentActivities.length < 5 then none
  else if recentActivities.length > 50 then
    some
      { agentId := agentId
        anomalyType := "unusual_access_pattern"
        severity := "high"
        confidence := min ((recentActivities.length : ℚ) / 100) 1
        indicators := [⟨"activity_burst", (recentActivities.length : ℚ), 50⟩]
        detectedAt := now
        recommendedAction :=
          "Review recent activities and consider temporary suspension" }
  else none

/-- trust-engine.ts `detectTrustManipulation`. -/
def detectTrustManipulation (agentId : String)
    (activities : List AgentActivity) (now : Int) :
    Option AnomalyDetectionResult :=
  let trustActivities := activities.filter
    (fun a => a.activityType == "trust_score_updated")
  if trustActivities.length < 3 then none
  else
    let recentChanges := trustActivities.take 5
    if recentChanges.length ≥ 3 then
      some
        { agentId := agentId
          anomalyType := "trust_manipulation"
          severity := "medium"
          confidence := 0.7
          indicators := [⟨"rapid_trust_changes", (recentChanges.length : ℚ), 3⟩]
          detectedAt := now
          recommendedAction := "Investigate trust score manipulation attempts" }
    else none

/-- trust-engine.ts `detectCapabilityEscalation`: needs at least two
capability-granted activities before it looks for "admin" inside
`JSON.stringify(a.metadata)`. -/
def detectCapabilityEscalation (agentId : String)
    (activities : List AgentActivity) (now : Int) :
    Option AnomalyDetectionResult :=
  let capabilityGrants := activities.filter
    (fun a => a.activityType == "capability_granted")
  if capabilityGrants.length < 2 then none
  else
    let adminGrants := capabilityGrants.filter
      (fun a => strIncludes a.metadata "admin")
    if adminGrants.length > 0 then
      some
        { agentId := agentId
          anomalyType := "capability_escalation"
          severity := "high"
          confidence := 0.8
          indicators := [⟨"admin_capability_grants", (adminGrants.length : ℚ), 0⟩]
          detectedAt := now
          recommendedAction := "Review admin capability grants immediately" }
    else none

/-- trust-engine.ts `detectCollusionPatterns`: the `Set` of related agent
ids is modelled by `List.dedup`. -/
def detectCollusionPatterns (agentId : String)
    (relationships : Relationships) (now : Int) :
    Option AnomalyDetectionResult :=
  let allRelatedIds := relationships.incoming.map (fun r => r.otherAgentId) ++
    relationships.outgoing.map (fun r => r.otherAgentId)
  let uniqueRelatedIds := allRelatedIds.dedup
  if uniqueRelatedIds.length > 20 then
    some
      { agentId := agentId
        anomalyType := "collusion_pattern"
        severity := "medium"
        confidence := min ((uniqueRelatedIds.length : ℚ) / 50) 1
        indicators := [⟨"high_connectivity", (uniqueRelatedIds.length : ℚ), 20⟩]
        detectedAt := now
        recommendedAction := "Review agent relationships for potential collusion" }
  else none

/-- `typeCounts[t] = (typeCounts[t] || 0) + 1` over a string-keyed object:
an association list in key-insertion order. -/
def bumpTypeCount (counts : List (String × Nat)) (key : String) :
    List (String × Nat) :=
  if counts.any (fun p => p.1 == key) then
    counts.map (fun p => if p.1 == key then (p.1, p.2 + 1) else p)
  else counts ++ [(key, 1)]

/-- The per-activity-type counts of `detectBehaviorDeviation`
(`Object.values` order is insertion order for these string keys). -/
def typeCounts (activities : List AgentActivity) : List (String × Nat) :=
  activities.foldl (fun counts a => bumpTypeCount counts a.activityType) []

/-- utils `calculateStandardDeviation`; `msqrt` stands for `Math.sqrt`. -/
def calculateStandardDeviation (msqrt : ℚ → ℚ) (numbers : List ℚ) : ℚ :=
  if numbers.length = 0 then 0
  else
    let mean := numbers.sum / (numbers.length : ℚ)
    let variance := (numbers.map (fun num => (num - mean) ^ 2)).sum /
      (numbers.length : ℚ)
    msqrt variance

/-- trust-engine.ts `detectBehaviorDeviation`. -/
def detectBehaviorDeviation (msqrt : ℚ → ℚ) (agentId : String)
    (activities : List AgentActivity) (now : Int) :
    Option AnomalyDetectionResult :=
  if activities.length < 10 then none
  else
    let typeDistribution := (typeCounts activities).map (fun p => (p.2 : ℚ))
    let stdDev := calculateStandardDeviation msqrt typeDistribution
    if stdDev > 5 then
      some
        { agentId := agentId
          anomalyType := "behavior_deviation"
          severity := "low"
          confidence := min (stdDev / 10) 1
          indicators := [⟨"behavior_variance", stdDev, 5⟩]
          detectedAt := now
          recommendedAction := "Monitor agent behavior patterns" }
    else none

/-- trust-engine.ts `detectAnomalies`: runs the five detectors in source
order and collects the non-null results. -/
def detectAnomalies (msqrt : ℚ → ℚ) (agentId : String)
    (activities : List AgentActivity) (relationships : Relationships)
    (now : Int) : List AnomalyDetectionResult :=
  [detectAccessPatternAnomalies agentId activities now,
   detectTrustManipulation agentId activities now,
   detectCapabilityEscalation agentId activities now,
   detectCollusionPatterns agentId relationships now,
   detectBehaviorDeviation msqrt agentId activities now].reduceOption

/-- attestation-service `AttestationChain`. -/
structure AttestationChain where
  attestations : List Attestation
  rootIssuer : String
  subject : String
  chainValid : Bool
  trustScore : ℚ

/-- The per-attestation validity test inside `buildAttestationChain`:
`!att.revocation && (!att.expiresAt || att.expiresAt > new Date())`. -/
def attestationCurrentlyValid (now : Int) (att : Attestation) : Bool :=
  !att.revoked &&
    (match att.expiresAt with
     | none => true
     | some expiresAt => now < expiresAt)

/-- The inner loop of `buildAttestationChain`: merge the attestations
issued by a trust assertion's issuer into the chain, deduplicated by the
visited id set (modelled as the list of ids already in the chain). -/
def chainMergeIssuerAttestations
    (acc : List Attestation × List String)
    (issuerAttestations : List Attestation) :
    List Attestation × List String :=
  issuerAttestations.foldl
    (fun acc issuerAtt =>
      if acc.2.contains issuerAtt.id then acc
      else (acc.1 ++ [issuerAtt], acc.2 ++ [issuerAtt.id]))
    acc

/-- One step of the outer loop of `buildAttestationChain`: push an unseen
attestation, and expand one hop through its issuer when it is a trust
assertion. `fetchByIssuer` models the `listAttestations({issuer,
validOnly: true}, {page: 1, limit: 10})` read. -/
def chainStep (fetchByIssuer : String → List Attestation)
    (acc : List Attestation × List String) (attestation : Attestation) :
    List Attestation × List String :=
  if acc.2.contains attestation.id then acc
  else
    let acc := (acc.1 ++ [attestation], acc.2 ++ [attestation.id])
    if attestation.atype == "trust_assertion" then
      chainMergeIssuerAttestations acc (fetchByIssuer attestation.issuer)
    else acc

/-- attestation-service `calculateChainTrustScore`: exponentially decaying
weights 1/(i+1); base 0.5 per attestation, 0.8 for a trust assertion, 0.7
for an identity verification, plus `min(claims.length × 0.05, 0.2)`;
weighted average capped at 1. -/
def calculateChainTrustScore (chain : List Attestation) : ℚ :=
  if chain.length = 0 then 0.5
  else
    let attScore := fun (attestation : Attestation) =>
      (if attestation.atype == "trust_assertion" then (0.8 : ℚ)
       else if attestation.atype == "identity_verification" then 0.7
       else 0.5) + min ((attestation.claims.length : ℚ) * 0.05) 0.2
    let totalScore := (chain.enum.map
      (fun p => attScore p.2 * (1 / ((p.1 : ℚ) + 1)))).sum
    let weight := (chain.enum.map (fun p => 1 / ((p.1 : ℚ) + 1))).sum
    min (totalScore / weight) 1

/-- attestation-service `buildAttestationChain`: `subjectAttestations` is
the result of the initial `listAttestations({subject, validOnly: true})`
read; the chain is assembled with a visited set, then `chainValid` and the
chain trust score are computed over it. `chain[0]?.issuer || subject`
falls back to the subject when the chain is empty (or the first issuer is
the empty string). -/
def buildAttestationChain (subject : String)
    (subjectAttestations : List Attestation)
    (fetchByIssuer : String → List Attestation) (now : Int) :
    AttestationChain :=
  let chain := (subjectAttestations.foldl (chainStep fetchByIssuer) ([], [])).1
  { attestations := chain
    rootIssuer :=
      match chain with
      | [] => subject
      | first :: _ => if first.issuer == "" then subject else first.issuer
    subject := subject
    chainValid := chain.all (attestationCurrentlyValid now)
    trustScore := calculateChainTrustScore chain }

/-- models/identity `VerificationMethod` (fields used by the ownership
check). -/
structure VerificationMethod where
  id : String
  vtype : String
  controller : String
  publicKeyHex : Option String

/-- A DID document as held in the DID service's local `documents` map. -/
structure DIDDocument where
  id : String
  verificationMethod : Option (List VerificationMethod)

/-- did-service `verifyDIDOwnership`: returns false when the document or
its verification methods or the first method's `publicKeyHex` are missing
(an empty `publicKeyHex` string is falsy too); otherwise it computes a
digest of the message, never inspects `signature`, and returns true
("Simplified for this implementation" in the source). Indexing an empty
`verificationMethod` array yields `undefined` and the subsequent property
access throws, modelled by the `error` branch. -/
def verifyDIDOwnership (documents : String → Option DIDDocument)
    (did signature message : String) : Except String Bool :=
  match documents did with
  | none => .ok false
  | some document =>
    match document.verificationMethod with
    | none => .ok false
    | some [] => .error "TypeError: reading publicKeyHex of undefined"
    | some (method :: _) =>
      match method.publicKeyHex with
      | none => .ok false
      | some publicKeyHex =>
        if publicKeyHex == "" then .ok false
        else .ok true

/-! ## Fixtures and theorems for the claims -/

/-- A stored capability granting action `read` over the resource pattern
`agents/*`, active and unexpired. -/
def capAgentsStar : Capability :=
  { id := "urn:cap:c1"
    subject := "did:ethr:0xsub"
    issuer := "did:ethr:0xiss"
    actions := ["read"]
    resources := ["agents/*"]
    conditions := none
    notBefore := some 0
    expiration := some 360000000
    issuedAt := 0
    revokedAt := none
    status := .active }

/-- The bearer token issued for `capAgentsStar`, with a valid signature. -/
def tokenAgentsStar : BearerToken :=
  { jti := "urn:cap:c1"
    sub := "did:ethr:0xsub"
    iss := "did:ethr:0xiss"
    iat := 0
    nbf := 0
    exp := 360000
    capActions := ["read"]
    capResources := ["agents/*"]
    sigValid := true }

/-- The capabilities table holding exactly `capAgentsStar`. -/
def dbAgentsStar : String → Option Capability := fun id =>
  if id == "urn:cap:c1" then some capAgentsStar else none

/-- C1: the claim (and the repository's own README example granting
`resources: ["data/*"]`) requires a grant of `agents/*` to accept a
request for `agents/123`. The source's check only tests literal equality,
literal `startsWith` and a bare `"*"`, so `"agents/123"` does not match
the granted pattern `"agents/*"` and a full verification of such a request
fails with the resource error; the intended wildcard suffix is never
expanded. (`"capabilities/1"` is rejected as the claim expects.) -/
theorem C1_wildcard_pattern_never_matches :
    hasResourceAccess ["agents/*"] "agents/123" = false ∧
    hasResourceAccess ["agents/*"] "capabilities/1" = false ∧
    (verifyCapability dbAgentsStar tokenAgentsStar "read" "agents/123"
      none 100).valid = false ∧
    (verifyCapability dbAgentsStar tokenAgentsStar "read" "agents/123"
      none 100).errors =
      some ["Resource \x27agents/123\x27 not accessible"] :=
  ⟨rfl, rfl, rfl, rfl⟩

/-- The DID service's local document map holding one document with one
verification method carrying a hex public key. -/
def documentsOneKey : String → Option DIDDocument := fun did =>
  if did == "did:ethr:0xabc" then
    some
      { id := "did:ethr:0xabc"
        verificationMethod := some
          [{ id := "did:ethr:0xabc#controller"
             vtype := "EcdsaSecp256k1VerificationKey2019"
             controller := "did:ethr:0xabc"
             publicKeyHex := some "04deadbeef" }] }
  else none

/-- C2: the claim requires `verifyDIDOwnership` to return true only when
the signature verifies against the message digest, and to return false for
some invalid signature. The source returns true for EVERY signature and
message once the document and its first verification method key exist (the
digest is computed and discarded, the signature is never read), so an
invalid signature is also accepted. -/
theorem C2_ownership_check_ignores_signature :
    (∀ signature message,
      verifyDIDOwnership documentsOneKey "did:ethr:0xabc" signature message =
        .ok true) ∧
    verifyDIDOwnership documentsOneKey "did:ethr:0xabc"
      "not-a-valid-signature" "arbitrary message" = .ok true :=
  ⟨fun _ _ => rfl, rfl⟩

/-- C5 counterexample: a request with `expiresInHours = 10000 > 8760`
yields an expiration 10000 hours out, strictly beyond `now + 8760` hours —
`issueCapability` applies no cap. -/
theorem C5_expiresInHours_not_capped :
    issueExpiration 0 (some 10000) = 36000000000 ∧
    ¬ (issueExpiration 0 (some 10000) ≤ 0 + 8760 * 60 * 60 * 1000) :=
  ⟨by decide, by decide⟩

/-- C5 (amended): `issueCapability` computes `expiration = now +
expiresInHours` hours with default 24 when the field is absent (or 0,
which is falsy); it applies no maximum. The 8760 bound lives in the
request-validation schema, which rejects (rather than caps) larger
values. -/
theorem C5_expiration_formula :
    (∀ now : Int, issueExpiration now none = now + 24 * 60 * 60 * 1000) ∧
    (∀ now : Int, issueExpiration now (some 0) = now + 24 * 60 * 60 * 1000) ∧
    (∀ (now h : Int), h ≠ 0 →
      issueExpiration now (some h) = now + h * 60 * 60 * 1000) ∧
    (∀ h : Int, 8760 < h → expiresInHoursSchemaAccepts (some h) = false) := by
  refine ⟨fun now => rfl, fun now => rfl, fun now h hnz => ?_, fun h hover => ?_⟩
  · show now + (if h = 0 then 24 else h) * 60 * 60 * 1000 =
      now + h * 60 * 60 * 1000
    rw [if_neg hnz]
  · unfold expiresInHoursSchemaAccepts
    have hle : decide (h ≤ 8760) = false := decide_eq_false (not_le.mpr hover)
    simp [hle]

/-- C5 witness: the amended formula evaluated at `expiresInHours = 48` and
the schema rejection at 9000. -/
theorem C5_expiration_formula_witness :
    issueExpiration 5 (some 48) = 5 + 48 * 60 * 60 * 1000 ∧
    expiresInHoursSchemaAccepts (some 9000) = false :=
  ⟨C5_expiration_formula.2.2.1 5 48 (by decide),
   C5_expiration_formula.2.2.2 9000 (by decide)⟩

/-- Whether a delegation attempt returned a record. -/
def delegationSucceeds : Except DelegationError CapabilityDelegation → Bool
  | .ok _ => true
  | .error _ => false

/-- C10: `delegateCapability` checks only that the delegator is the
capability's subject and that its actions include `delegate`; it never
reads `status`, `revokedAt` or `expiration`, so delegation succeeds even
for a revoked or expired parent capability. -/
theorem C10_delegation_ignores_status (db : String → Option Capability)
    (capabilityId delegator delegatee : String)
    (restrictionActions restrictionResources : Option (List String))
    (expiresInHours : Option Int) (freshId : String) (now : Int)
    (cap : Capability)
    (hdb : db capabilityId = some cap)
    (hsub : cap.subject = delegator)
    (hdel : cap.actions.contains "delegate" = true)
    (hdead : cap.status = .revoked ∨ cap.status = .expired) :
    delegationSucceeds (delegateCapability db capabilityId delegator
      delegatee restrictionActions restrictionResources expiresInHours
      freshId now) = true := by
  unfold delegateCapability
  simp only [hdb, hdel]
  rw [if_neg (fun hc => hc hsub)]
  rfl

/-- A revoked capability whose actions include `delegate`. -/
def capRevokedDelegable : Capability :=
  { id := "urn:cap:c10"
    subject := "did:ethr:0xsub"
    issuer := "did:ethr:0xiss"
    actions := ["read", "delegate"]
    resources := ["agents"]
    conditions := none
    notBefore := some 0
    expiration := some 1000
    issuedAt := 0
    revokedAt := some 500
    status := .revoked }

/-- The capabilities table holding exactly `capRevokedDelegable`. -/
def dbRevokedDelegable : String → Option Capability := fun id =>
  if id == "urn:cap:c10" then some capRevokedDelegable else none

/-- C10 witness: delegating the revoked capability `capRevokedDelegable`
succeeds. -/
theorem C10_delegation_ignores_status_witness :
    delegationSucceeds (delegateCapability dbRevokedDelegable "urn:cap:c10"
      "did:ethr:0xsub" "did:ethr:0xdelegatee" none none none "del-1"
      2000) = true :=
  C10_delegation_ignores_status dbRevokedDelegable "urn:cap:c10"
    "did:ethr:0xsub" "did:ethr:0xdelegatee" none none none "del-1" 2000
    capRevokedDelegable rfl rfl rfl (Or.inl rfl)

/-- A capability that is revoked AND whose expiration (1000, in both the
token `exp` and the stored row) is in the past at evaluation time 2000. -/
def capRevokedExpired : Capability :=
  { id := "urn:cap:c3"
    subject := "did:ethr:0xsub"
    issuer := "did:ethr:0xiss"
    actions := ["read"]
    resources := ["agents"]
    conditions := none
    notBefore := some 0
    expiration := some 1000
    issuedAt := 0
    revokedAt := some 500
    status := .revoked }

/-- The bearer token of `capRevokedExpired` (valid signature,
`exp = 1000`). -/
def tokenRevokedExpired : BearerToken :=
  { jti := "urn:cap:c3"
    sub := "did:ethr:0xsub"
    iss := "did:ethr:0xiss"
    iat := 0
    nbf := 0
    exp := 1000
    capActions := ["read"]
    capResources := ["agents"]
    sigValid := true }

/-- The capabilities table holding exactly `capRevokedExpired`. -/
def dbRevokedExpired : String → Option Capability := fun id =>
  if id == "urn:cap:c3" then some capRevokedExpired else none

/-- C3 counterexample: at time 2000 the capability behind
`tokenRevokedExpired` is both revoked and past expiration, yet
`verifyCapability` reports the token-expired error, not the revocation
error — `jwt.verify` checks `exp` before the stored record is ever read. -/
theorem C3_revoked_and_expired_reports_expiry :
    (verifyCapability dbRevokedExpired tokenRevokedExpired "read" "agents"
      none 2000).errors = some ["Token has expired"] ∧
    some ["Token has expired"] ≠ some ["Capability has been revoked"] :=
  ⟨rfl, by decide⟩

/-- C3 (amended): verification order is (1) JWT verification — signature,
not-before AND `exp` —, (2) record lookup, (3) revoked status, (4) stored
expired status, (5) subject, (6) action, (7) resource, (8) conditions.
Hence a token past its `exp` yields "Token has expired" regardless of the
stored status (even revoked), and the revocation error wins only when the
JWT layer still accepts the token. -/
theorem C3_verification_order :
    (∀ (db : String → Option Capability) (token : BearerToken)
       (action resource : String)
       (context : Option (List (String × JSValue))) (now : Int),
      token.sigValid = true → token.nbf ≤ now → token.exp ≤ now →
      verifyCapability db token action resource context now =
        failResult ["Token has expired"]) ∧
    (∀ (db : String → Option Capability) (token : BearerToken)
       (action resource : String)
       (context : Option (List (String × JSValue))) (now : Int)
       (cap : Capability),
      token.sigValid = true → token.nbf ≤ now → now < token.exp →
      db token.jti = some cap → cap.status = .revoked →
      verifyCapability db token action resource context now =
        failResult ["Capability has been revoked"]) := by
  constructor
  · intro db token action resource context now hsig hnbf hexp
    have hjwt : jwtVerify token now = .error .tokenExpired := by
      unfold jwtVerify
      rw [hsig]
      rw [if_neg (by simp), if_neg (not_lt.mpr hnbf), if_pos hexp]
    unfold verifyCapability
    rw [hjwt]
  · intro db token action resource context now cap hsig hnbf hexp hdb hrev
    have hjwt : jwtVerify token now = .ok token := by
      unfold jwtVerify
      rw [hsig]
      rw [if_neg (by simp), if_neg (not_lt.mpr hnbf),
        if_neg (not_le.mpr hexp)]
    unfold verifyCapability
    rw [hjwt]
    simp only [hdb]
    rw [if_pos hrev]

/-- C3 witness: the two branches of the amended order instantiated on
`capRevokedExpired` — at time 2000 (token expired) and at time 600 (token
alive, record revoked). -/
theorem C3_verification_order_witness :
    verifyCapability dbRevokedExpired tokenRevokedExpired "read" "agents"
      none 2000 = failResult ["Token has expired"] ∧
    verifyCapability dbRevokedExpired tokenRevokedExpired "read" "agents"
      none 600 = failResult ["Capability has been revoked"] :=
  ⟨C3_verification_order.1 dbRevokedExpired tokenRevokedExpired "read"
      "agents" none 2000 rfl (by decide) (by decide),
   C3_verification_order.2 dbRevokedExpired tokenRevokedExpired "read"
      "agents" none 600 capRevokedExpired rfl (by decide) (by decide) rfl
      rfl⟩

/-- A capability carrying one `equals` condition that no absent-key
context can satisfy. -/
def capWithCondition : Capability :=
  { id := "urn:cap:c4"
    subject := "did:ethr:0xsub"
    issuer := "did:ethr:0xiss"
    actions := ["read"]
    resources := ["agents"]
    conditions := some [⟨"context", "region", "equals", .str "eu-west"⟩]
    notBefore := some 0
    expiration := some 1000
    issuedAt := 0
    revokedAt := none
    status := .active }

/-- The bearer token of `capWithCondition`. -/
def tokenWithCondition : BearerToken :=
  { jti := "urn:cap:c4"
    sub := "did:ethr:0xsub"
    iss := "did:ethr:0xiss"
    iat := 0
    nbf := 0
    exp := 1000
    capActions := ["read"]
    capResources := ["agents"]
    sigValid := true }

/-- The capabilities table holding exactly `capWithCondition`. -/
def dbWithCondition : String → Option Capability := fun id =>
  if id == "urn:cap:c4" then some capWithCondition else none

/-- C4 counterexample: a `greater_than` condition whose parameter is
absent from the supplied context produces NO error (the numeric type guard
silently skips it); and with no context supplied at all, verification of
`capWithCondition` succeeds even though its `equals` condition could never
be satisfied — conditions are skipped entirely. -/
theorem C4_absent_key_not_always_failure :
    evaluateConditions [⟨"context", "rate", "greater_than", .num 5⟩] [] = [] ∧
    (verifyCapability dbWithCondition tokenWithCondition "read" "agents"
      none 100).valid = true :=
  ⟨rfl, rfl⟩

/-- C4 (amended): with a supplied context missing the condition parameter,
only `equals` (against a non-undefined value) and `in` (against an array
not containing undefined) fail; `greater_than`, `less_than`, `contains`,
and the unimplemented `not_equals`, `before`, `after` operators are
silently satisfied; and when no context is supplied at all,
`verifyCapability` skips condition evaluation and returns valid. -/
theorem C4_absent_key_semantics :
    (∀ (c : CapabilityCondition) (ctx : List (String × JSValue)),
      jsLookup ctx c.parameter = .undefined →
      (c.operator = "greater_than" ∨ c.operator = "less_than" ∨
       c.operator = "contains" ∨ c.operator = "not_equals" ∨
       c.operator = "before" ∨ c.operator = "after") →
      evaluateCondition ctx c = []) ∧
    (∀ (c : CapabilityCondition) (ctx : List (String × JSValue)),
      jsLookup ctx c.parameter = .undefined → c.operator = "equals" →
      jsStrictEq .undefined c.value = false →
      evaluateCondition ctx c ≠ []) ∧
    (∀ (c : CapabilityCondition) (ctx : List (String × JSValue))
       (xs : List JSValue),
      jsLookup ctx c.parameter = .undefined → c.operator = "in" →
      c.value = .arr xs → jsArrIncludes xs .undefined = false →
      evaluateCondition ctx c ≠ []) ∧
    (∀ (db : String → Option Capability) (token : BearerToken)
       (action resource : String) (now : Int) (cap : Capability),
      token.sigValid = true → token.nbf ≤ now → now < token.exp →
      db token.jti = some cap → cap.status = .active →
      token.sub = cap.subject → cap.actions.contains action = true →
      hasResourceAccess cap.resources resource = true →
      verifyCapability db token action resource none now =
        ⟨true, some cap, some token.sub, some cap.actions, none⟩) := by
  refine ⟨?_, ?_, ?_, ?_⟩
  · intro c ctx habs hop
    rcases hop with h | h | h | h | h | h <;>
      simp only [evaluateCondition, habs, h] <;> rfl
  · intro c ctx habs hop hne
    simp only [evaluateCondition, habs, hop, hne]
    simp
  · intro c ctx xs habs hop harr hnin
    simp only [evaluateCondition, habs, hop, harr, hnin]
    simp
  · intro db token action resource now cap hsig hnbf hexp hdb hstat hsub
      hact hres
    have hjwt : jwtVerify token now = .ok token := by
      unfold jwtVerify
      rw [hsig]
      rw [if_neg (by simp), if_neg (not_lt.mpr hnbf),
        if_neg (not_le.mpr hexp)]
    unfold verifyCapability
    rw [hjwt]
    simp only [hdb, hstat, hact, hres]
    rw [if_neg (by decide), if_neg (by decide),
      if_neg (fun hc => hc hsub)]
    simp only [Bool.not_true, Bool.false_eq_true, if_false]
    cases hcond : cap.conditions <;> rfl

/-- C4 witness: the amended semantics instantiated — an absent-key
`greater_than` condition passes, an absent-key `equals` condition fails,
an absent-key `in` condition fails, and verifying `capWithCondition`
without a context succeeds. -/
theorem C4_absent_key_semantics_witness :
    evaluateCondition [] ⟨"context", "rate", "greater_than", .num 5⟩ = [] ∧
    evaluateCondition [] ⟨"context", "region", "equals", .str "eu-west"⟩ ≠ [] ∧
    evaluateCondition [] ⟨"context", "tier", "in", .arr [.str "gold"]⟩ ≠ [] ∧
    verifyCapability dbWithCondition tokenWithCondition "read" "agents"
      none 100 =
      ⟨true, some capWithCondition, some tokenWithCondition.sub,
        some capWithCondition.actions, none⟩ :=
  ⟨C4_absent_key_semantics.1 ⟨"context", "rate", "greater_than", .num 5⟩ []
      rfl (Or.inl rfl),
   C4_absent_key_semantics.2.1 ⟨"context", "region", "equals", .str "eu-west"⟩
      [] rfl rfl rfl,
   C4_absent_key_semantics.2.2.1 ⟨"context", "tier", "in", .arr [.str "gold"]⟩
      [] [.str "gold"] rfl rfl rfl rfl,
   C4_absent_key_semantics.2.2.2 dbWithCondition tokenWithCondition "read"
      "agents" 100 capWithCondition rfl (by decide) (by decide) rfl rfl rfl
      rfl rfl⟩

/-- Shape of a successful `revokeCapability`: the stored row is rewritten
to revoked with `revokedAt` set to the CURRENT call time, and one
revocation activity is appended — also when it was already revoked. -/
theorem revokeCapability_ok_shape (st : RevokeState) (capabilityId : String)
    (revokedBy : String) (reason : Option String) (adminCheck : Bool)
    (now : Int) (s : RevokeState)
    (h : revokeCapability st capabilityId revokedBy reason adminCheck now =
      .ok s) :
    s.capability = { st.capability with
      status := .revoked
      revokedAt := some now } ∧
    s.subjectAgentId = st.subjectAgentId ∧
    s.activities = st.activities ++
      [{ agentId := st.subjectAgentId
         activityType := "capability_revoked"
         description := "Capability revoked: " ++ (reason.getD "No reason provided")
         timestamp := now
         capabilityId := capabilityId
         revokedBy := revokedBy
         reason := reason }] := by
  unfold revokeCapability at h
  split at h
  · exact absurd h (by simp)
  · split at h
    · exact absurd h (by simp)
    · injection h with h
      subst h
      exact ⟨rfl, rfl, rfl⟩

/-- The initial state for the re-revocation scenario: an active capability
and an empty activity log. -/
def revokeInitialState : RevokeState :=
  { capability :=
      { id := "urn:cap:c6"
        subject := "did:ethr:0xsub"
        issuer := "did:ethr:0xiss"
        actions := ["read"]
        resources := ["agents"]
        conditions := none
        notBefore := some 0
        expiration := some 10000
        issuedAt := 0
        revokedAt := none
        status := .active }
    subjectAgentId := "agent-sub"
    activities := [] }

/-- The state after the first revocation (by the issuer, at time 1). -/
def revokeStateAfterFirst : RevokeState :=
  { capability :=
      { revokeInitialState.capability with
          status := .revoked
          revokedAt := some 1 }
    subjectAgentId := "agent-sub"
    activities :=
      [{ agentId := "agent-sub"
         activityType := "capability_revoked"
         description := "Capability revoked: No reason provided"
         timestamp := 1
         capabilityId := "urn:cap:c6"
         revokedBy := "did:ethr:0xiss"
         reason := none }] }

/-- C6 counterexample: re-revoking at time 2 what was revoked at time 1
does NOT leave the state identical: `revokedAt` is overwritten with the
second call time (2 instead of 1), and a second revocation activity record
is appended (log length 2 instead of 1). -/
theorem C6_rerevocation_changes_state :
    revokeCapability revokeInitialState "urn:cap:c6" "did:ethr:0xiss" none
      false 1 = .ok revokeStateAfterFirst ∧
    (revokeCapability revokeStateAfterFirst "urn:cap:c6" "did:ethr:0xiss"
      none false 2).map (fun s => s.capability.revokedAt) = .ok (some 2) ∧
    (revokeCapability revokeStateAfterFirst "urn:cap:c6" "did:ethr:0xiss"
      none false 2).map (fun s => s.activities.length) = .ok 2 ∧
    revokeStateAfterFirst.capability.revokedAt = some 1 ∧
    revokeStateAfterFirst.activities.length = 1 ∧
    (some (2 : Int) ≠ some 1) :=
  ⟨rfl, rfl, rfl, rfl, rfl, by decide⟩

/-- C6 (amended): re-revoking an already-revoked capability succeeds
without error and the status stays `revoked` (idempotent in status), but
the final state is not identical to the state after the first revocation:
`revokedAt` is overwritten with the second call's timestamp and one more
revocation activity is appended. -/
theorem C6_rerevocation_rewrite (st : RevokeState) (capabilityId : String)
    (revokedBy : String) (reason : Option String) (adminCheck : Bool)
    (t1 t2 : Int) (s1 s2 : RevokeState)
    (h1 : revokeCapability st capabilityId revokedBy reason adminCheck t1 =
      .ok s1)
    (h2 : revokeCapability s1 capabilityId revokedBy reason adminCheck t2 =
      .ok s2) :
    s1.capability.status = .revoked ∧
    s2.capability.status = .revoked ∧
    s1.capability.revokedAt = some t1 ∧
    s2.capability.revokedAt = some t2 ∧
    s2.activities.length = s1.activities.length + 1 := by
  obtain ⟨hc1, -, ha1⟩ := revokeCapability_ok_shape st capabilityId
    revokedBy reason adminCheck t1 s1 h1
  obtain ⟨hc2, -, ha2⟩ := revokeCapability_ok_shape s1 capabilityId
    revokedBy reason adminCheck t2 s2 h2
  refine ⟨by rw [hc1], by rw [hc2], by rw [hc1], by rw [hc2], ?_⟩
  rw [ha2, List.length_append, List.length_singleton]

/-- C6 witness: the amended rewrite behaviour on the concrete
re-revocation scenario (first call at time 1, second at time 2). -/
theorem C6_rerevocation_rewrite_witness :
    revokeStateAfterFirst.capability.status = .revoked ∧
    (match revokeCapability revokeStateAfterFirst "urn:cap:c6"
        "did:ethr:0xiss" none false 2 with
      | .ok s2 => s2
      | .error _ => revokeStateAfterFirst).capability.status = .revoked ∧
    revokeStateAfterFirst.capability.revokedAt = some 1 ∧
    (match revokeCapability revokeStateAfterFirst "urn:cap:c6"
        "did:ethr:0xiss" none false 2 with
      | .ok s2 => s2
      | .error _ => revokeStateAfterFirst).capability.revokedAt = some 2 ∧
    (match revokeCapability revokeStateAfterFirst "urn:cap:c6"
        "did:ethr:0xiss" none false 2 with
      | .ok s2 => s2
      | .error _ => revokeStateAfterFirst).activities.length =
      revokeStateAfterFirst.activities.length + 1 :=
  C6_rerevocation_rewrite revokeInitialState "urn:cap:c6" "did:ethr:0xiss"
    none false 1 2 revokeStateAfterFirst
    (match revokeCapability revokeStateAfterFirst "urn:cap:c6"
        "did:ethr:0xiss" none false 2 with
      | .ok s2 => s2
      | .error _ => revokeStateAfterFirst)
    rfl rfl

/-- C7 counterexample: with the default rates (decay 0.05, boost 0.1) an
agent with zero attestations, zero activity, zero relationships,
reputation 0 and age 0 receives finalScore 37/40 = 0.925 — the neutral
sub-scores contribute 0.45 on top of the 0.5 base — which is NOT within
the claimed interval [0.5 − 0.05×0.5, 0.5]. -/
theorem C7_empty_agent_score_default_rates :
    (calculateTrustScore 0.05 0.1 [] [] ⟨[], []⟩ 0 0 [] 0).finalScore =
      37 / 40 ∧
    ¬ ((37 : ℚ) / 40 ≤ 0.5) := by
  constructor
  · norm_num [calculateTrustScore, calculateAttestationScore,
      calculateActivityScore, calculateRelationshipScore, calculateAgeScore,
      calculateReputationScore, calculateRecencyWeight,
      calculateAnomalyPenalty, clamp]
  · norm_num

/-- C7 (amended): for an agent with zero attestations, zero activity, zero
relationships, reputation 0, age 0 and no unresolved anomalies, the final
score is `clamp (0.95 − decayRate×0.5) 0 1`: the empty attestation,
activity and relationship inputs each contribute a neutral 0.5 sub-score
(weights 0.3, 0.2, 0.2) and reputation 0 contributes 0.5 (weight 0.2), so
the pre-decay score is 0.95, not the claimed 0.5. -/
theorem C7_empty_agent_score_formula (decayRate boostRate : ℚ) (now : Int) :
    (calculateTrustScore decayRate boostRate [] [] ⟨[], []⟩ 0 now []
      now).finalScore = clamp (0.95 - decayRate * 0.5) 0 1 := by
  norm_num [calculateTrustScore, calculateAttestationScore,
    calculateActivityScore, calculateRelationshipScore, calculateAgeScore,
    calculateReputationScore, calculateRecencyWeight,
    calculateAnomalyPenalty, clamp]

/-- C8: whenever `buildAttestationChain` reports `chainValid = true`,
every attestation in the returned chain is simultaneously non-revoked and
non-expired at the evaluation time `now`. -/
theorem C8_chain_valid_sound (subject : String)
    (subjectAttestations : List Attestation)
    (fetchByIssuer : String → List Attestation) (now : Int)
    (att : Attestation)
    (hmem : att ∈ (buildAttestationChain subject subjectAttestations
      fetchByIssuer now).attestations)
    (hvalid : (buildAttestationChain subject subjectAttestations
      fetchByIssuer now).chainValid = true) :
    att.revoked = false ∧ Option.elim att.expiresAt True (fun e => now < e) := by
  have h : (buildAttestationChain subject subjectAttestations fetchByIssuer
      now).attestations.all (attestationCurrentlyValid now) = true := hvalid
  have h2 := List.all_eq_true.mp h att hmem
  unfold attestationCurrentlyValid at h2
  rw [Bool.and_eq_true, Bool.not_eq_true'] at h2
  refine ⟨h2.1, ?_⟩
  cases he : att.expiresAt with
  | none => exact trivial
  | some e =>
    have h3 := h2.2
    rw [he] at h3
    show now < e
    exact of_decide_eq_true h3

/-- A single non-revoked attestation expiring at time 100, used to build a
valid chain at evaluation time 7. -/
def attIdentityFresh : Attestation :=
  { id := "att-1"
    atype := "identity_verification"
    issuer := "did:ethr:0xiss"
    subject := "did:ethr:0xs"
    claims := []
    issuedAt := 0
    expiresAt := some 100
    revoked := false }

/-- C8 witness: the chain built from `attIdentityFresh` at time 7 is valid
and the soundness theorem yields its non-revocation and liveness. -/
theorem C8_chain_valid_sound_witness :
    attIdentityFresh.revoked = false ∧
    Option.elim attIdentityFresh.expiresAt True (fun e => (7 : Int) < e) :=
  C8_chain_valid_sound "did:ethr:0xs" [attIdentityFresh] (fun _ => []) 7
    attIdentityFresh
    (by show attIdentityFresh ∈ [attIdentityFresh]; exact List.Mem.head _)
    rfl

/-- C9 counterexample: an activity log containing exactly ONE
capability-granted activity whose metadata mentions "admin" produces no
anomaly at all — `detectCapabilityEscalation` returns before the admin
scan unless there are at least two capability grants. -/
theorem C9_single_admin_grant_no_anomaly :
    detectAnomalies (fun q => q) "agent-esc"
      [⟨"capability_granted", 0, "granted with admin scope"⟩] ⟨[], []⟩ 0 =
      [] ∧
    strIncludes "granted with admin scope" "admin" = true :=
  ⟨rfl, by decide⟩

/-- C9 (amended): when the activity log holds between two and nine
capability-granted activities (and nothing else), at least one of which
mentions "admin" in its metadata, and the relationship graph touches at
most 20 distinct agents, `detectAnomalies` reports exactly one anomaly:
the capability escalation, severity high, confidence 0.8; the other four
detectors all stay silent. A single admin grant is not enough. -/
theorem C9_escalation_exactly_one (msqrt : ℚ → ℚ) (agentId : String)
    (activities : List AgentActivity) (relationships : Relationships)
    (now : Int)
    (hall : ∀ a ∈ activities, a.activityType = "capability_granted")
    (h2 : 2 ≤ activities.length) (h10 : activities.length < 10)
    (hadmin : ∃ a ∈ activities, strIncludes a.metadata "admin" = true)
    (hrel : ((relationships.incoming.map (fun r => r.otherAgentId) ++
      relationships.outgoing.map (fun r => r.otherAgentId)).dedup).length ≤
      20) :
    detectAnomalies msqrt agentId activities relationships now =
      [{ agentId := agentId
         anomalyType := "capability_escalation"
         severity := "high"
         confidence := 0.8
         indicators := [⟨"admin_capability_grants",
           ((activities.filter
             (fun a => strIncludes a.metadata "admin")).length : ℚ), 0⟩]
         detectedAt := now
         recommendedAction := "Review admin capability grants immediately" }] := by
  have hcap : activities.filter
      (fun a => a.activityType == "capability_granted") = activities :=
    List.filter_eq_self.mpr (fun a ha => by rw [hall a ha]; rfl)
  have haccess : detectAccessPatternAnomalies agentId activities now = none := by
    unfold detectAccessPatternAnomalies
    have hrlen : (activities.filter
        (fun a => a.timestamp > now - 60 * 60 * 1000)).length < 10 :=
      lt_of_le_of_lt (List.length_filter_le _ _) h10
    by_cases hlt : (activities.filter
        (fun a => decide (a.timestamp > now - 60 * 60 * 1000))).length < 5
    · rw [if_pos hlt]
    · rw [if_neg hlt, if_neg (by omega)]
  have htrustm : detectTrustManipulation agentId activities now = none := by
    unfold detectTrustManipulation
    have hemp : activities.filter
        (fun a => a.activityType == "trust_score_updated") = [] :=
      List.filter_eq_nil_iff.mpr (fun a ha => by rw [hall a ha]; decide)
    rw [hemp]
    rfl
  have hesc : detectCapabilityEscalation agentId activities now =
      some { agentId := agentId
             anomalyType := "capability_escalation"
             severity := "high"
             confidence := 0.8
             indicators := [⟨"admin_capability_grants",
               ((activities.filter
                 (fun a => strIncludes a.metadata "admin")).length : ℚ), 0⟩]
             detectedAt := now
             recommendedAction :=
               "Review admin capability grants immediately" } := by
    unfold detectCapabilityEscalation
    rw [hcap]
    rw [if_neg (by omega)]
    obtain ⟨a, ha, hadm⟩ := hadmin
    have hmem : a ∈ activities.filter
        (fun x => strIncludes x.metadata "admin") :=
      List.mem_filter.mpr ⟨ha, hadm⟩
    rw [if_pos (List.length_pos.mpr (List.ne_nil_of_mem hmem))]
  have hcoll : detectCollusionPatterns agentId relationships now = none := by
    unfold detectCollusionPatterns
    rw [if_neg (by omega)]
  have hbeh : detectBehaviorDeviation msqrt agentId activities now = none := by
    unfold detectBehaviorDeviation
    rw [if_pos h10]
  unfold detectAnomalies
  rw [haccess, htrustm, hesc, hcoll, hbeh]
  rfl

/-- An injected scenario satisfying only the capability-escalation
trigger: two capability grants, one mentioning "admin". -/
def escalationActivities : List AgentActivity :=
  [⟨"capability_granted", 0, "granted with admin scope"⟩,
   ⟨"capability_granted", 0, "granted read scope"⟩]

/-- C9 witness: the amended theorem on `escalationActivities` — exactly
one anomaly, the capability escalation at high severity, confidence 0.8. -/
theorem C9_escalation_exactly_one_witness :
    detectAnomalies (fun q => q) "agent-esc" escalationActivities ⟨[], []⟩
      0 =
      [{ agentId := "agent-esc"
         anomalyType := "capability_escalation"
         severity := "high"
         confidence := 0.8
         indicators := [⟨"admin_capability_grants",
           ((escalationActivities.filter
             (fun a => strIncludes a.metadata "admin")).length : ℚ), 0⟩]
         detectedAt := 0
         recommendedAction := "Review admin capability grants immediately" }] :=
  C9_escalation_exactly_one (fun q => q) "agent-esc" escalationActivities
    ⟨[], []⟩ 0 (by decide) (by decide) (by decide) (by decide) (by decide)

end AgentIdentityHub
